import Mathlib

/-!
Verification of the face-to-slot alignment and compositing pipeline of the
ARfacedemo repository (`src/main.js`, production build; `src/unnamed/part_000`
is an earlier draft of the same module and `src/sw.js` is the asset cache).

The per-frame pipeline lives in `drawComposite` (`src/main.js` lines 143-199)
with helpers `pickKeypoints`, `drawSlotGuide`, `scalePt`.  JavaScript numbers
are modelled as exact reals; `Math.atan2 y x` is modelled as the principal
argument of the complex number `x + y*I` (same range `(-pi, pi]` and quadrant
conventions); `Math.hypot` as `Real.sqrt (x*x + y*y)`; the JS `a || b`
fallback on numbers as `if a = 0 then b else a` (NaN is not modelled).

The 2D canvas context is modelled as a state machine: a current affine
transform, a current composite operation, a save/restore stack, and the list
of paint commands issued since the last full-canvas `clearRect` (the visible
surface content; two context states with equal command lists render
pixel-identically, since every command records the transform and composite
mode in force when it was issued).  Constant stroke styling
(`strokeStyle`/`setLineDash`/`lineWidth`, `src/main.js` lines 134-136) is not
modelled: it is fixed and no claim mentions it.
-/

set_option maxHeartbeats 1000000

noncomputable section

namespace FaceDemo

/-- A 2D point `[x, y]` (JS arrays of two numbers throughout `main.js`). -/
@[ext] structure Pt where
  x : ℝ
  y : ℝ

/-- `Math.hypot x y` over exact reals. -/
def hypot (x y : ℝ) : ℝ := Real.sqrt (x * x + y * y)

/-- `Math.atan2 y x` over exact reals: the principal argument of `x + y*I`. -/
def atan2 (y x : ℝ) : ℝ := Complex.arg ⟨x, y⟩

/-- The JS numeric fallback `v || d`: `d` when `v` is `0`, else `v`. -/
def orDefault (v d : ℝ) : ℝ := if v = 0 then d else v

/-- Vector from `l` to `r` (the code's `sdx/sdy` and `ddx/ddy`,
`src/main.js` lines 160-163). -/
def vecOf (l r : Pt) : Pt := ⟨r.x - l.x, r.y - l.y⟩

/-- Eye midpoint (the code's `sMid`/`dMid`, `src/main.js` lines 157, 171). -/
def eyeMid (l r : Pt) : Pt := ⟨(l.x + r.x) / 2, (l.y + r.y) / 2⟩

/-- `angle = Math.atan2(ddy, ddx) - Math.atan2(sdy, sdx)`
(`src/main.js` line 165). -/
def solveAngle (sv dv : Pt) : ℝ := atan2 dv.y dv.x - atan2 sv.y sv.x

/-- `Math.hypot(vx, vy) || 1` — the guarded eye distance used as numerator
and denominator of `scale` (`src/main.js` lines 166-167). -/
def guardedDist (v : Pt) : ℝ := orDefault (hypot v.x v.y) 1

/-- `scale = dDist / sDist` (`src/main.js` line 168). -/
def solveScale (sv dv : Pt) : ℝ := guardedDist dv / guardedDist sv

/-- `state.meta.slot.roi_scale || 1.5` (`src/main.js` line 172): an absent
(or zero) `roi_scale` falls back to `1.5`. -/
def jsRoiScale (o : Option ℝ) : ℝ :=
  match o with
  | none => 1.5
  | some r => orDefault r 1.5

/-- `roiSize = Math.max(64, Math.hypot(sdx, sdy) * roiScale)`
(`src/main.js` line 173). -/
def roiSide (sv : Pt) (rs : ℝ) : ℝ := max 64 (hypot sv.x sv.y * rs)

/-- The reference mapping of spec §8: rotate a vector by `θ`, then scale it
uniformly by `k`.  (Spec-side definition used to state the Transform Solver
correctness property; it is not part of the code.) -/
def rotateScale (v : Pt) (θ k : ℝ) : Pt :=
  ⟨k * (Real.cos θ * v.x - Real.sin θ * v.y),
   k * (Real.sin θ * v.x + Real.cos θ * v.y)⟩

/-- View a point as a complex number (proof device for C1). -/
def Pt.toC (p : Pt) : ℂ := ⟨p.x, p.y⟩

/-- One face's landmark set: an indexed family of normalized points (the
external detector guarantees index stability; `main.js` reads indices 33,
263, 152). -/
def Landmarks : Type := Nat → Pt

/-- The deserialized `slot.json` metadata (`state.meta`): `image_size`,
the three slot anchors, and the optional `roi_scale`.  (`preview` is used
only for canvas sizing, which no claim concerns.) -/
structure Meta where
  imageW : ℝ
  imageH : ℝ
  eye_left : Pt
  eye_right : Pt
  chin : Pt
  roi_scale : Option ℝ

/-- The ambient inputs `drawComposite` reads besides `results`: the loaded
metadata, the canvas pixel size, the video element's reported pixel size, and
the `complete` flags of the two asset images. -/
structure Env where
  meta : Option Meta
  canvasW : ℝ
  canvasH : ℝ
  videoW : ℝ
  videoH : ℝ
  baseComplete : Bool
  maskComplete : Bool

/-- The three source-frame anchors picked from the landmark set. -/
structure Keypoints where
  eyeL : Pt
  eyeR : Pt
  chin : Pt

/-- `pickKeypoints(lm, vw, vh)` (`src/main.js` lines 114-120): denormalize
landmarks 33 (left eye outer), 263 (right eye outer), 152 (chin) into source
pixel space. -/
def pickKeypoints (lm : Landmarks) (vw vh : ℝ) : Keypoints :=
  ⟨⟨(lm 33).x * vw, (lm 33).y * vh⟩,
   ⟨(lm 263).x * vw, (lm 263).y * vh⟩,
   ⟨(lm 152).x * vw, (lm 152).y * vh⟩⟩

/-- `scalePt` (`src/main.js` lines 64-69): map a point from `image_size`
space into current canvas space. -/
def scalePt (env : Env) (m : Meta) (p : Pt) : Pt :=
  ⟨p.x * (env.canvasW / m.imageW), p.y * (env.canvasH / m.imageH)⟩

/-- A 2D affine transform, in canvas order `(a, b, c, d, e, f)`:
`x' = a*x + c*y + e`, `y' = b*x + d*y + f`. -/
@[ext] structure Affine where
  a : ℝ
  b : ℝ
  c : ℝ
  d : ℝ
  e : ℝ
  f : ℝ

/-- The identity transform (the context's default state). -/
def Affine.id : Affine := ⟨1, 0, 0, 1, 0, 0⟩

/-- Composition `m.comp n`: first apply `n`, then `m`.  Canvas transform
calls (`translate`/`rotate`/`scale`) multiply the new transform onto the
right of the current one. -/
def Affine.comp (m n : Affine) : Affine :=
  ⟨m.a * n.a + m.c * n.b, m.b * n.a + m.d * n.b,
   m.a * n.c + m.c * n.d, m.b * n.c + m.d * n.d,
   m.a * n.e + m.c * n.f + m.e, m.b * n.e + m.d * n.f + m.f⟩

/-- Apply an affine transform to a point. -/
def Affine.apply (m : Affine) (p : Pt) : Pt :=
  ⟨m.a * p.x + m.c * p.y + m.e, m.b * p.x + m.d * p.y + m.f⟩

/-- `ctx.translate x y`. -/
def translation (x y : ℝ) : Affine := ⟨1, 0, 0, 1, x, y⟩

/-- `ctx.rotate θ` (counterclockwise in canvas coordinates). -/
def rotation (θ : ℝ) : Affine :=
  ⟨Real.cos θ, Real.sin θ, -Real.sin θ, Real.cos θ, 0, 0⟩

/-- `ctx.scale kx ky`. -/
def scaling (kx ky : ℝ) : Affine := ⟨kx, 0, 0, ky, 0, 0⟩

/-- `globalCompositeOperation` values used by the code. -/
inductive CompOp where
  | sourceOver
  | destinationIn
deriving DecidableEq

/-- The square region sampled from the live video frame into the fresh
offscreen buffer (`src/main.js` lines 176-183): buffer dimensions, source
rectangle in video coordinates, destination rectangle in the buffer. -/
structure RegionSample where
  bufW : ℝ
  bufH : ℝ
  sx : ℝ
  sy : ℝ
  sw : ℝ
  sh : ℝ
  dx : ℝ
  dy : ℝ
  dw : ℝ
  dh : ℝ

/-- The Region Sampler: a fresh `roiSize × roiSize` offscreen canvas filled
by `offCtx.drawImage(video, sMid-roiSize/2, sMid-roiSize/2, roiSize, roiSize,
0, 0, roiSize, roiSize)`. -/
def sampleRegion (sMid : Pt) (side : ℝ) : RegionSample :=
  ⟨side, side, sMid.x - side / 2, sMid.y - side / 2, side, side,
    0, 0, side, side⟩

/-- Identity of an image drawn on the preview context: the character
background, the soft mask, or the offscreen ROI buffer (whose pixel content
is a deterministic function of the video frame and the sampled region). -/
inductive ImgSrc where
  | base
  | mask
  | offscreen (region : RegionSample)

/-- A paint command committed to the surface, recording the transform and
composite operation in force when it was issued. -/
inductive Cmd where
  | image (src : ImgSrc) (t : Affine) (op : CompOp) (dx dy dw dh : ℝ)
  | ellipse (t : Affine) (cx cy rx ry rot a0 a1 : ℝ)

/-- The 2D context state: current transform, current composite operation,
the `save`/`restore` stack, and the paint commands issued since the last
full-canvas clear (the visible surface content). -/
@[ext] structure Ctx where
  transform : Affine
  comp : CompOp
  saved : List (Affine × CompOp)
  cmds : List Cmd

/-- Primitive context operations performed by `drawComposite` (the full-canvas
`clearRect(0, 0, w, h)` is the only clear the code issues). -/
inductive CtxOp where
  | clearAll
  | drawImage (src : ImgSrc) (dx dy dw dh : ℝ)
  | ellipse (cx cy rx ry rot a0 a1 : ℝ)
  | save
  | restore
  | translate (x y : ℝ)
  | rotate (θ : ℝ)
  | scaleBy (kx ky : ℝ)
  | setComp (op : CompOp)

/-- Small-step semantics of the 2D context. -/
def exec (op : CtxOp) (c : Ctx) : Ctx :=
  match op with
  | .clearAll => { c with cmds := [] }
  | .drawImage s dx dy dw dh =>
      { c with cmds := c.cmds ++ [Cmd.image s c.transform c.comp dx dy dw dh] }
  | .ellipse cx cy rx ry rot a0 a1 =>
      { c with cmds := c.cmds ++ [Cmd.ellipse c.transform cx cy rx ry rot a0 a1] }
  | .save => { c with saved := (c.transform, c.comp) :: c.saved }
  | .restore =>
      match c.saved with
      | [] => c
      | (t, op) :: rest => { c with transform := t, comp := op, saved := rest }
  | .translate x y => { c with transform := c.transform.comp (translation x y) }
  | .rotate θ => { c with transform := c.transform.comp (rotation θ) }
  | .scaleBy kx ky => { c with transform := c.transform.comp (scaling kx ky) }
  | .setComp op => { c with comp := op }

/-- Run a sequence of context operations. -/
def execList (l : List CtxOp) (c : Ctx) : Ctx :=
  match l with
  | [] => c
  | op :: rest => execList rest (exec op c)

/-- `drawSlotGuide` (`src/main.js` lines 123-141): no-op without metadata;
otherwise a dashed ellipse at the scaled slot anchors, inside `save`/`restore`.
Note the drawn center is `(midX, midY + ry * 0.1)`. -/
def drawSlotGuideOps (env : Env) : List CtxOp :=
  match env.meta with
  | none => []
  | some m =>
      let dstL := scalePt env m m.eye_left
      let dstR := scalePt env m m.eye_right
      let midX := (dstL.x + dstR.x) / 2
      let midY := (dstL.y + dstR.y) / 2
      let rx := hypot (dstR.x - dstL.x) (dstR.y - dstL.y) * 0.75
      let ry := rx * 1.2
      [CtxOp.save,
       CtxOp.ellipse midX (midY + ry * 0.1) rx ry 0 0 (2 * Real.pi),
       CtxOp.restore]

/-- The face branch of `drawComposite` (`src/main.js` lines 150-198),
entered when a landmark set is present.  When `state.meta` is `null` the
branch throws at `scalePt` before issuing any context operation, so it
contributes no operations. -/
def faceOps (env : Env) (results : Option (List Landmarks)) : List CtxOp :=
  match results, env.meta with
  | some (lm :: _), some m =>
      let vw := orDefault env.videoW 640
      let vh := orDefault env.videoH 480
      let src := pickKeypoints lm vw vh
      let dstL := scalePt env m m.eye_left
      let dstR := scalePt env m m.eye_right
      let dMid := eyeMid dstL dstR
      let sv := vecOf src.eyeL src.eyeR
      let dv := vecOf dstL dstR
      let angle := solveAngle sv dv
      let scale := solveScale sv dv
      let sMid := eyeMid src.eyeL src.eyeR
      let roiSize := roiSide sv (jsRoiScale m.roi_scale)
      let region := sampleRegion sMid roiSize
      [CtxOp.save,
       CtxOp.translate dMid.x dMid.y,
       CtxOp.rotate angle,
       CtxOp.scaleBy scale scale,
       CtxOp.translate (-(roiSize / 2)) (-(roiSize / 2)),
       CtxOp.drawImage (ImgSrc.offscreen region) 0 0 roiSize roiSize] ++
      (if env.maskComplete then
        [CtxOp.setComp CompOp.destinationIn,
         CtxOp.drawImage ImgSrc.mask 0 0 roiSize roiSize,
         CtxOp.setComp CompOp.sourceOver]
      else []) ++
      [CtxOp.restore]
  | _, _ => []

/-- The unconditional head of every composite pass (`src/main.js` lines
145-147): clear, draw the background if loaded, draw the guide. -/
def backgroundOps (env : Env) : List CtxOp :=
  CtxOp.clearAll ::
    ((if env.baseComplete then
        [CtxOp.drawImage ImgSrc.base 0 0 env.canvasW env.canvasH]
      else []) ++
     drawSlotGuideOps env)

/-- All context operations of one `drawComposite(results)` call
(`src/main.js` lines 143-199). -/
def drawCompositeOps (env : Env) (results : Option (List Landmarks)) :
    List CtxOp :=
  backgroundOps env ++ faceOps env results

/-- One composite pass: run `drawComposite`'s operations on the context. -/
def drawComposite (env : Env) (results : Option (List Landmarks)) (c : Ctx) :
    Ctx :=
  execList (drawCompositeOps env results) c

/-- The guide ellipse command as recorded by a pass that starts from the
default (identity transform, source-over) context state. -/
def guideEllipse (env : Env) (m : Meta) : Cmd :=
  let dstL := scalePt env m m.eye_left
  let dstR := scalePt env m m.eye_right
  let midX := (dstL.x + dstR.x) / 2
  let midY := (dstL.y + dstR.y) / 2
  let rx := hypot (dstR.x - dstL.x) (dstR.y - dstL.y) * 0.75
  let ry := rx * 1.2
  Cmd.ellipse Affine.id midX (midY + ry * 0.1) rx ry 0 0 (2 * Real.pi)

/-- The surface content of a pass with no detected face, from the default
context state: exactly the background image and the guide. -/
def backgroundCmds (env : Env) (m : Meta) : List Cmd :=
  [Cmd.image ImgSrc.base Affine.id CompOp.sourceOver 0 0 env.canvasW env.canvasH,
   guideEllipse env m]

/-- The two face-overlay commands of a pass with a detected face, from the
default context state: the ROI buffer drawn source-over and the mask drawn
destination-in, both under the transform
`translate(dMid) ∘ rotate(angle) ∘ scale(scale) ∘ translate(-roiSize/2)`
applied in exactly that order. -/
def faceCmds (env : Env) (m : Meta) (lm : Landmarks) : List Cmd :=
  let vw := orDefault env.videoW 640
  let vh := orDefault env.videoH 480
  let src := pickKeypoints lm vw vh
  let dstL := scalePt env m m.eye_left
  let dstR := scalePt env m m.eye_right
  let dMid := eyeMid dstL dstR
  let sv := vecOf src.eyeL src.eyeR
  let dv := vecOf dstL dstR
  let angle := solveAngle sv dv
  let scale := solveScale sv dv
  let sMid := eyeMid src.eyeL src.eyeR
  let roiSize := roiSide sv (jsRoiScale m.roi_scale)
  let region := sampleRegion sMid roiSize
  let place :=
    (((Affine.id.comp (translation dMid.x dMid.y)).comp
        (rotation angle)).comp
      (scaling scale scale)).comp
      (translation (-(roiSize / 2)) (-(roiSize / 2)))
  [Cmd.image (ImgSrc.offscreen region) place CompOp.sourceOver 0 0 roiSize roiSize,
   Cmd.image ImgSrc.mask place CompOp.destinationIn 0 0 roiSize roiSize]

/-- The mutable session state read by the detector callback and the reset
handler (`src/main.js` lines 25-31): the `running` flag and the preview
context.  (Camera and detector handles carry no behavior the claims need.) -/
structure Session where
  running : Bool
  ctx : Ctx

/-- The `fm.onResults` callback (`src/main.js` lines 105-108): if the
session is not running it returns without touching the surface, otherwise it
runs one composite pass. -/
def onResults (env : Env) (r : Option (List Landmarks)) (s : Session) :
    Session :=
  if s.running then { s with ctx := drawComposite env r s.ctx } else s

/-- The reset handler's effect on session state (`src/main.js` lines
341-348): clear the `running` flag (tracks are stopped externally) and clear
the canvas. -/
def resetSession (s : Session) : Session :=
  { running := false, ctx := { s.ctx with cmds := [] } }

/-- The default inter-frame context state: identity transform, source-over
compositing, empty save stack (every pass leaves the context this way). -/
def blankCtx : Ctx := ⟨Affine.id, CompOp.sourceOver, [], []⟩

/-- A concrete slot metadata record (for witnesses). -/
def m0 : Meta :=
  { imageW := 100, imageH := 100, eye_left := ⟨20, 40⟩,
    eye_right := ⟨80, 40⟩, chin := ⟨50, 90⟩, roi_scale := none }

/-- A concrete environment with loaded metadata and both assets ready
(for witnesses). -/
def env0 : Env :=
  { meta := some m0, canvasW := 100, canvasH := 100, videoW := 640,
    videoH := 480, baseComplete := true, maskComplete := true }

/-- A concrete landmark set placing every landmark at the frame center
(for witnesses). -/
def lm0 : Landmarks := fun _ => ⟨1 / 2, 1 / 2⟩

/-- A concrete slot metadata record with a horizontal destination eye pair of
distance 100 authored in a 100×100 image (for the C7 counterexample). -/
def m7 : Meta :=
  { imageW := 100, imageH := 100, eye_left := ⟨0, 0⟩,
    eye_right := ⟨100, 0⟩, chin := ⟨50, 50⟩, roi_scale := none }

/-- The C7 counterexample environment. -/
def env7 : Env :=
  { meta := some m7, canvasW := 100, canvasH := 100, videoW := 640,
    videoH := 480, baseComplete := true, maskComplete := true }

lemma toC_inj {v w : Pt} (h : v.toC = w.toC) : v = w := by
  cases v; cases w
  simpa [Pt.toC, Complex.ext_iff] using h

lemma hypot_eq_abs (p : Pt) : hypot p.x p.y = Complex.abs p.toC := by
  simp [hypot, Complex.abs_apply, Pt.toC, Complex.normSq_mk]

lemma atan2_eq_arg (p : Pt) : atan2 p.y p.x = Complex.arg p.toC := rfl

lemma hypot_nonneg (x y : ℝ) : 0 ≤ hypot x y := Real.sqrt_nonneg _

lemma hypot_x_zero {a : ℝ} (h : 0 ≤ a) : hypot a 0 = a := by
  simp [hypot, Real.sqrt_mul_self h]

lemma toC_rotateScale (v : Pt) (θ k : ℝ) :
    (rotateScale v θ k).toC = (k : ℂ) * Complex.exp (θ * Complex.I) * v.toC := by
  apply Complex.ext <;>
    simp [rotateScale, Pt.toC, Complex.mul_re, Complex.mul_im,
      Complex.exp_ofReal_mul_I_re, Complex.exp_ofReal_mul_I_im] <;>
    ring

lemma rotate_arg_scale_abs (s d : ℂ) (hs : s ≠ 0) :
    ((Complex.abs d / Complex.abs s : ℝ) : ℂ) *
      Complex.exp ((d.arg - s.arg) * Complex.I) * s = d := by
  have h1 := Complex.abs_mul_exp_arg_mul_I s
  have h2 := Complex.abs_mul_exp_arg_mul_I d
  have hs' : (Complex.abs s : ℂ) ≠ 0 := by
    exact_mod_cast Complex.abs.ne_zero hs
  have he : Complex.exp ((s.arg : ℂ) * Complex.I) ≠ 0 := Complex.exp_ne_zero _
  push_cast
  rw [sub_mul, Complex.exp_sub]
  field_simp

lemma guardedDist_of_ne {v : Pt} (h : v.toC ≠ 0) :
    guardedDist v = Complex.abs v.toC := by
  rw [guardedDist, hypot_eq_abs, orDefault, if_neg (Complex.abs.ne_zero h)]

lemma vec_toC_ne_of_lt {l r : Pt} (h : l.x < r.x) : (vecOf l r).toC ≠ 0 := by
  intro hc
  have : r.x - l.x = 0 := congrArg Complex.re hc
  linarith

lemma vec_toC_ne_of_ne {l r : Pt} (h : l ≠ r) : (vecOf l r).toC ≠ 0 := by
  intro hc
  apply h
  have hx : r.x - l.x = 0 := congrArg Complex.re hc
  have hy : r.y - l.y = 0 := congrArg Complex.im hc
  ext <;> linarith

@[simp] lemma execList_nil (c : Ctx) : execList [] c = c := rfl

@[simp] lemma execList_cons (op : CtxOp) (l : List CtxOp) (c : Ctx) :
    execList (op :: l) c = execList l (exec op c) := rfl

lemma execList_append (l₁ l₂ : List CtxOp) (c : Ctx) :
    execList (l₁ ++ l₂) c = execList l₂ (execList l₁ c) := by
  induction l₁ generalizing c with
  | nil => rfl
  | cons op rest ih => simp [ih]

lemma drawComposite_run (env : Env) (r : Option (List Landmarks))
    (sv : List (Affine × CompOp)) (cm : List Cmd) :
    drawComposite env r ⟨Affine.id, CompOp.sourceOver, sv, cm⟩ =
      ⟨Affine.id, CompOp.sourceOver, sv, (drawComposite env r blankCtx).cmds⟩ := by
  rcases r with _ | (_ | ⟨lm, rest⟩) <;>
    rcases hm : env.meta with _ | m <;>
    rcases hb : env.baseComplete with _ | _ <;>
    rcases hmask : env.maskComplete with _ | _ <;>
    simp [drawComposite, drawCompositeOps, backgroundOps, drawSlotGuideOps,
      faceOps, blankCtx, hm, hb, hmask, exec]

lemma drawComposite_none_cmds (env : Env) (m : Meta)
    (hm : env.meta = some m) (hb : env.baseComplete = true) :
    (drawComposite env none blankCtx).cmds = backgroundCmds env m := by
  simp [drawComposite, drawCompositeOps, backgroundOps, drawSlotGuideOps,
    faceOps, blankCtx, hm, hb, exec, backgroundCmds, guideEllipse]

lemma drawComposite_noface_cmds (env : Env) (m : Meta)
    (hm : env.meta = some m) (hb : env.baseComplete = true) :
    (drawComposite env (some []) blankCtx).cmds = backgroundCmds env m := by
  simp [drawComposite, drawCompositeOps, backgroundOps, drawSlotGuideOps,
    faceOps, blankCtx, hm, hb, exec, backgroundCmds, guideEllipse]

lemma drawComposite_face_cmds (env : Env) (m : Meta) (lm : Landmarks)
    (rest : List Landmarks) (hm : env.meta = some m)
    (hb : env.baseComplete = true) (hmask : env.maskComplete = true) :
    (drawComposite env (some (lm :: rest)) blankCtx).cmds =
      backgroundCmds env m ++ faceCmds env m lm := by
  simp [drawComposite, drawCompositeOps, backgroundOps, drawSlotGuideOps,
    faceOps, blankCtx, hm, hb, hmask, exec, backgroundCmds, guideEllipse,
    faceCmds]

/-- Claim C1 (amended): for every source anchor pair with `eyeL.x < eyeR.x`
and every destination anchor pair with distinct eye anchors, the Transform
Solver's `angle` and `scale` (as computed by `src/main.js` lines 159-168)
reproduce the destination eye vector exactly:
`rotateScale srcVec angle scale = dstVec`.  (The amendment adds
`dstEyeL ≠ dstEyeR`: for a coincident destination pair the `|| 1` fallback on
the destination distance makes the solver produce a unit-length output
instead of the zero vector, see the counterexample.) -/
theorem solver_reproduces_dst (sL sR dL dR : Pt)
    (hsrc : sL.x < sR.x) (hdst : dL ≠ dR) :
    rotateScale (vecOf sL sR)
      (solveAngle (vecOf sL sR) (vecOf dL dR))
      (solveScale (vecOf sL sR) (vecOf dL dR)) = vecOf dL dR := by
  have hs : (vecOf sL sR).toC ≠ 0 := vec_toC_ne_of_lt hsrc
  have hd : (vecOf dL dR).toC ≠ 0 := vec_toC_ne_of_ne hdst
  apply toC_inj
  rw [toC_rotateScale]
  have hang : solveAngle (vecOf sL sR) (vecOf dL dR) =
      (vecOf dL dR).toC.arg - (vecOf sL sR).toC.arg := rfl
  have hsc : solveScale (vecOf sL sR) (vecOf dL dR) =
      Complex.abs (vecOf dL dR).toC / Complex.abs (vecOf sL sR).toC := by
    rw [solveScale, guardedDist_of_ne hs, guardedDist_of_ne hd]
  rw [hang, hsc]
  exact_mod_cast rotate_arg_scale_abs _ ((vecOf dL dR).toC) hs

/-- Claim C1 counterexample: with source eyes `(0,0)`, `(1,0)` (so
`eyeL.x < eyeR.x` holds) and the coincident destination pair `(0,0)`, `(0,0)`,
the solver's outputs give `rotateScale srcVec angle scale = (1,0)`, which is
not the destination vector `(0,0)`: the claim fails for this destination
anchor pair. -/
theorem solver_degenerate_dst_cex :
    (Pt.mk 0 0).x < (Pt.mk 1 0).x ∧
    rotateScale (vecOf ⟨0, 0⟩ ⟨1, 0⟩)
      (solveAngle (vecOf ⟨0, 0⟩ ⟨1, 0⟩) (vecOf ⟨0, 0⟩ ⟨0, 0⟩))
      (solveScale (vecOf ⟨0, 0⟩ ⟨1, 0⟩) (vecOf ⟨0, 0⟩ ⟨0, 0⟩)) ≠
      vecOf (⟨0, 0⟩ : Pt) ⟨0, 0⟩ := by
  constructor
  · norm_num
  · have hv : vecOf (⟨0, 0⟩ : Pt) ⟨1, 0⟩ = ⟨1, 0⟩ := by
      simp [vecOf]
    have hz : vecOf (⟨0, 0⟩ : Pt) ⟨0, 0⟩ = ⟨0, 0⟩ := by
      simp [vecOf]
    rw [hv, hz]
    have hang : solveAngle (⟨1, 0⟩ : Pt) ⟨0, 0⟩ = 0 := by
      have h1 : atan2 (0 : ℝ) (0 : ℝ) = 0 := by
        have : ((⟨0, 0⟩ : ℂ)) = 0 := Complex.ext rfl rfl
        rw [atan2, this, Complex.arg_zero]
      have h2 : atan2 (0 : ℝ) (1 : ℝ) = 0 := by
        have : ((⟨1, 0⟩ : ℂ)) = 1 := Complex.ext rfl rfl
        rw [atan2, this, Complex.arg_one]
      simp [solveAngle, h1, h2]
    have hsc : solveScale (⟨1, 0⟩ : Pt) ⟨0, 0⟩ = 1 := by
      have h0 : hypot (0 : ℝ) 0 = 0 := by simp [hypot]
      have h1 : hypot (1 : ℝ) 0 = 1 := hypot_x_zero (by norm_num)
      simp [solveScale, guardedDist, h0, h1, orDefault]
    rw [hang, hsc]
    simp [rotateScale, Pt.mk.injEq]

/-- Claim C2 counterexample: the code's denominator is `Math.hypot(sdx,sdy)
|| 1`, not a floor at `1`.  With source eyes `(0,0)`, `(1/2,0)` (eye distance
`1/2`) and destination eyes `(0,0)`, `(1,0)`, the code computes
`scale = 2`, while a denominator "guarded to a minimum of 1" would give
`|dstVec| / max 1 |srcVec| = 1`. -/
theorem scale_guard_cex :
    solveScale (vecOf ⟨0, 0⟩ ⟨1 / 2, 0⟩) (vecOf ⟨0, 0⟩ ⟨1, 0⟩) = 2 ∧
    hypot (vecOf (⟨0, 0⟩ : Pt) ⟨1, 0⟩).x (vecOf (⟨0, 0⟩ : Pt) ⟨1, 0⟩).y /
      max 1 (hypot (vecOf (⟨0, 0⟩ : Pt) ⟨1 / 2, 0⟩).x
        (vecOf (⟨0, 0⟩ : Pt) ⟨1 / 2, 0⟩).y) = 1 ∧
    (2 : ℝ) ≠ 1 := by
  have hv : vecOf (⟨0, 0⟩ : Pt) ⟨1 / 2, 0⟩ = ⟨1 / 2, 0⟩ := by simp [vecOf]
  have hw : vecOf (⟨0, 0⟩ : Pt) ⟨1, 0⟩ = ⟨1, 0⟩ := by simp [vecOf]
  have h1 : hypot (1 : ℝ) 0 = 1 := hypot_x_zero (by norm_num)
  have h2 : hypot (1 / 2 : ℝ) 0 = 1 / 2 := hypot_x_zero (by norm_num)
  rw [hv, hw]
  refine ⟨?_, ?_, by norm_num⟩
  · simp only [solveScale, guardedDist, orDefault]
    rw [h1, h2]
    norm_num
  · show hypot 1 0 / max 1 (hypot (1 / 2) 0) = 1
    rw [h1, h2, max_eq_left (by norm_num : (1 / 2 : ℝ) ≤ 1)]
    norm_num

/-- Claim C2 (amended): the denominator of `scale` is `|srcVec|` with a
fallback to `1` exactly when `|srcVec| = 0` (the JS `|| 1`), not a floor at
`1`.  For every input the denominator is strictly positive — so no division
fault occurs and the computed scale is a well-defined finite real — and for a
degenerate (coincident-eye) source pair the scale resolves to the guarded
destination distance itself. -/
theorem scale_guard_amended (sL sR dL dR : Pt) :
    0 < guardedDist (vecOf sL sR) ∧
    guardedDist (vecOf sL sR) =
      (if hypot (vecOf sL sR).x (vecOf sL sR).y = 0 then 1
        else hypot (vecOf sL sR).x (vecOf sL sR).y) ∧
    (hypot (vecOf sL sR).x (vecOf sL sR).y = 0 →
      solveScale (vecOf sL sR) (vecOf dL dR) = guardedDist (vecOf dL dR)) := by
  refine ⟨?_, rfl, ?_⟩
  · rw [guardedDist, orDefault]
    by_cases h : hypot (vecOf sL sR).x (vecOf sL sR).y = 0
    · rw [if_pos h]; norm_num
    · rw [if_neg h]
      exact lt_of_le_of_ne (hypot_nonneg _ _) (Ne.symm h)
  · intro h
    have hgs : guardedDist (vecOf sL sR) = 1 := by
      rw [guardedDist, orDefault, if_pos h]
    rw [solveScale, hgs, div_one]

/-- Witness for the amended claim C2 at a concrete input: a coincident source
pair `(3,4)`, `(3,4)` and destination eyes `(0,0)`, `(1,0)`. -/
theorem scale_guard_witness :
    0 < guardedDist (vecOf ⟨3, 4⟩ ⟨3, 4⟩) ∧
    solveScale (vecOf ⟨3, 4⟩ ⟨3, 4⟩) (vecOf ⟨0, 0⟩ ⟨1, 0⟩) =
      guardedDist (vecOf ⟨0, 0⟩ ⟨1, 0⟩) :=
  ⟨(scale_guard_amended ⟨3, 4⟩ ⟨3, 4⟩ ⟨0, 0⟩ ⟨1, 0⟩).1,
    (scale_guard_amended ⟨3, 4⟩ ⟨3, 4⟩ ⟨0, 0⟩ ⟨1, 0⟩).2.2 (by
      simp [vecOf, hypot])⟩

/-- Witness for the amended claim C1 at a concrete input: source eyes `(0,0)`,
`(1,0)`; destination eyes `(0,0)`, `(0,1)`. -/
theorem solver_reproduces_dst_witness :
    (Pt.mk 0 0).x < (Pt.mk 1 0).x ∧ (Pt.mk 0 0) ≠ (Pt.mk 0 1) ∧
    rotateScale (vecOf ⟨0, 0⟩ ⟨1, 0⟩)
      (solveAngle (vecOf ⟨0, 0⟩ ⟨1, 0⟩) (vecOf ⟨0, 0⟩ ⟨0, 1⟩))
      (solveScale (vecOf ⟨0, 0⟩ ⟨1, 0⟩) (vecOf ⟨0, 0⟩ ⟨0, 1⟩)) =
      vecOf (⟨0, 0⟩ : Pt) ⟨0, 1⟩ :=
  ⟨by norm_num, by simp [Pt.mk.injEq],
    solver_reproduces_dst ⟨0, 0⟩ ⟨1, 0⟩ ⟨0, 0⟩ ⟨0, 1⟩ (by norm_num)
      (by simp [Pt.mk.injEq])⟩

/-- Claim C3: the Region Sampler computes a square ROI of side
`max(64, eyeDistance * roi_scale)` (with `roi_scale` defaulting to `1.5`
when absent, and assumed nonzero when present, since the JS `|| 1.5` also
replaces an explicit `0`), allocates a fresh buffer of exactly that side, and
samples the live frame centered on the source eye-midpoint; in particular
with source eyes `(100,200)`, `(200,200)` and `roi_scale = 1.5` the side is
`150`. -/
theorem roi_square_side (eyeL eyeR : Pt) (rsOpt : Option ℝ)
    (hrs : ∀ r, rsOpt = some r → r ≠ 0) :
    roiSide (vecOf eyeL eyeR) (jsRoiScale rsOpt) =
      max 64 (hypot (vecOf eyeL eyeR).x (vecOf eyeL eyeR).y * rsOpt.getD 1.5) ∧
    (sampleRegion (eyeMid eyeL eyeR) (roiSide (vecOf eyeL eyeR) (jsRoiScale rsOpt))).bufW =
      roiSide (vecOf eyeL eyeR) (jsRoiScale rsOpt) ∧
    (sampleRegion (eyeMid eyeL eyeR) (roiSide (vecOf eyeL eyeR) (jsRoiScale rsOpt))).bufH =
      roiSide (vecOf eyeL eyeR) (jsRoiScale rsOpt) ∧
    (sampleRegion (eyeMid eyeL eyeR) (roiSide (vecOf eyeL eyeR) (jsRoiScale rsOpt))).sw =
      roiSide (vecOf eyeL eyeR) (jsRoiScale rsOpt) ∧
    (sampleRegion (eyeMid eyeL eyeR) (roiSide (vecOf eyeL eyeR) (jsRoiScale rsOpt))).sh =
      roiSide (vecOf eyeL eyeR) (jsRoiScale rsOpt) ∧
    (sampleRegion (eyeMid eyeL eyeR) (roiSide (vecOf eyeL eyeR) (jsRoiScale rsOpt))).sx +
      roiSide (vecOf eyeL eyeR) (jsRoiScale rsOpt) / 2 = (eyeMid eyeL eyeR).x ∧
    (sampleRegion (eyeMid eyeL eyeR) (roiSide (vecOf eyeL eyeR) (jsRoiScale rsOpt))).sy +
      roiSide (vecOf eyeL eyeR) (jsRoiScale rsOpt) / 2 = (eyeMid eyeL eyeR).y ∧
    roiSide (vecOf ⟨100, 200⟩ ⟨200, 200⟩) (jsRoiScale (some 1.5)) = 150 := by
  have hjs : jsRoiScale rsOpt = rsOpt.getD 1.5 := by
    cases rsOpt with
    | none => rfl
    | some r => simp [jsRoiScale, orDefault, hrs r rfl]
  refine ⟨by rw [roiSide, hjs], rfl, rfl, rfl, rfl, ?_, ?_, ?_⟩
  · show (eyeMid eyeL eyeR).x - roiSide (vecOf eyeL eyeR) (jsRoiScale rsOpt) / 2 +
      roiSide (vecOf eyeL eyeR) (jsRoiScale rsOpt) / 2 = (eyeMid eyeL eyeR).x
    ring
  · show (eyeMid eyeL eyeR).y - roiSide (vecOf eyeL eyeR) (jsRoiScale rsOpt) / 2 +
      roiSide (vecOf eyeL eyeR) (jsRoiScale rsOpt) / 2 = (eyeMid eyeL eyeR).y
    ring
  · have hv : vecOf (⟨100, 200⟩ : Pt) ⟨200, 200⟩ = ⟨100, 0⟩ := by
      simp [vecOf]; norm_num
    have hh : hypot (100 : ℝ) 0 = 100 := hypot_x_zero (by norm_num)
    have hj : jsRoiScale (some 1.5) = 1.5 := by
      simp [jsRoiScale, orDefault]
    rw [hv, roiSide, hj]
    rw [show ((⟨100, 0⟩ : Pt).x) = (100 : ℝ) from rfl,
      show ((⟨100, 0⟩ : Pt).y) = (0 : ℝ) from rfl, hh]
    rw [max_eq_right (by norm_num : (64 : ℝ) ≤ 100 * 1.5)]
    norm_num

/-- Witness for claim C3 at a concrete input: `roi_scale = some 1.5`
(nonzero), source eyes `(100,200)`, `(200,200)`. -/
theorem roi_square_side_witness :
    roiSide (vecOf ⟨100, 200⟩ ⟨200, 200⟩) (jsRoiScale (some 1.5)) =
      max 64 (hypot (vecOf (⟨100, 200⟩ : Pt) ⟨200, 200⟩).x
        (vecOf (⟨100, 200⟩ : Pt) ⟨200, 200⟩).y * (some (1.5 : ℝ)).getD 1.5) ∧
    roiSide (vecOf ⟨100, 200⟩ ⟨200, 200⟩) (jsRoiScale (some 1.5)) = 150 := by
  have h := roi_square_side ⟨100, 200⟩ ⟨200, 200⟩ (some 1.5)
    (by intro r hr; cases hr; norm_num)
  exact ⟨h.1, h.2.2.2.2.2.2.2⟩

/-- Claim C4: when no face is detected (`results`'s landmark list absent or
empty), the composite pass leaves the surface holding exactly the background
image plus the guide, regardless of the previous frame's content (`cm`,
quantified) — the leading full-canvas clear removes any stale face overlay. -/
theorem no_face_background_guide (env : Env) (m : Meta)
    (sv : List (Affine × CompOp)) (cm : List Cmd)
    (hm : env.meta = some m) (hb : env.baseComplete = true) :
    (drawComposite env none ⟨Affine.id, CompOp.sourceOver, sv, cm⟩).cmds =
      backgroundCmds env m ∧
    (drawComposite env (some []) ⟨Affine.id, CompOp.sourceOver, sv, cm⟩).cmds =
      backgroundCmds env m := by
  constructor
  · rw [drawComposite_run]
    exact drawComposite_none_cmds env m hm hb
  · rw [drawComposite_run]
    exact drawComposite_noface_cmds env m hm hb

/-- Witness for claim C4: a no-detection pass over a surface still holding a
stale command renders exactly background plus guide. -/
theorem no_face_background_guide_witness :
    env0.meta = some m0 ∧ env0.baseComplete = true ∧
    (drawComposite env0 none
        ⟨Affine.id, CompOp.sourceOver, [], [guideEllipse env0 m0]⟩).cmds =
      backgroundCmds env0 m0 :=
  ⟨rfl, rfl,
    (no_face_background_guide env0 m0 [] [guideEllipse env0 m0] rfl rfl).1⟩

/-- Claim C5: with a detected face (and mask loaded), the pass draws the ROI
buffer under the transform `translate(dMid) ∘ rotate(angle) ∘ scale(scale) ∘
translate(-roiSize/2)` composed in exactly that order (the `place` transform
recorded in `faceCmds`), then the mask with `destination-in` under the same
transform, and leaves the context's composite operation restored to
`source-over` (and the transform restored to the identity) for later draws. -/
theorem transform_order_and_mask (env : Env) (m : Meta) (lm : Landmarks)
    (rest : List Landmarks) (sv : List (Affine × CompOp)) (cm : List Cmd)
    (hm : env.meta = some m) (hb : env.baseComplete = true)
    (hmask : env.maskComplete = true) :
    (drawComposite env (some (lm :: rest))
        ⟨Affine.id, CompOp.sourceOver, sv, cm⟩).cmds =
      backgroundCmds env m ++ faceCmds env m lm ∧
    (drawComposite env (some (lm :: rest))
        ⟨Affine.id, CompOp.sourceOver, sv, cm⟩).comp = CompOp.sourceOver ∧
    (drawComposite env (some (lm :: rest))
        ⟨Affine.id, CompOp.sourceOver, sv, cm⟩).transform = Affine.id := by
  refine ⟨?_, ?_, ?_⟩
  · rw [drawComposite_run]
    exact drawComposite_face_cmds env m lm rest hm hb hmask
  · rw [drawComposite_run]
  · rw [drawComposite_run]

/-- Witness for claim C5 at a concrete input. -/
theorem transform_order_and_mask_witness :
    (drawComposite env0 (some [lm0])
        ⟨Affine.id, CompOp.sourceOver, [], []⟩).cmds =
      backgroundCmds env0 m0 ++ faceCmds env0 m0 lm0 ∧
    (drawComposite env0 (some [lm0])
        ⟨Affine.id, CompOp.sourceOver, [], []⟩).comp = CompOp.sourceOver ∧
    (drawComposite env0 (some [lm0])
        ⟨Affine.id, CompOp.sourceOver, [], []⟩).transform = Affine.id :=
  transform_order_and_mask env0 m0 lm0 [] [] [] rfl rfl rfl

/-- Claim C6 counterexample: a composite pass is not atomic.  Stopping after
its first operation (the `clearRect`) leaves the surface holding neither the
previous frame's content nor the completed frame: with a previous surface
holding one command, the partial surface is empty while the completed pass
shows background plus guide. -/
theorem atomicity_cex :
    (execList ((drawCompositeOps env0 none).take 1)
        ⟨Affine.id, CompOp.sourceOver, [], [guideEllipse env0 m0]⟩).cmds ≠
      (⟨Affine.id, CompOp.sourceOver, [], [guideEllipse env0 m0]⟩ : Ctx).cmds ∧
    (execList ((drawCompositeOps env0 none).take 1)
        ⟨Affine.id, CompOp.sourceOver, [], [guideEllipse env0 m0]⟩).cmds ≠
      (drawComposite env0 none
        ⟨Affine.id, CompOp.sourceOver, [], [guideEllipse env0 m0]⟩).cmds := by
  have h1 : (drawCompositeOps env0 none).take 1 = [CtxOp.clearAll] := rfl
  constructor
  · rw [h1]
    simp [execList, exec]
  · rw [h1, drawComposite_run, drawComposite_none_cmds env0 m0 rfl rfl]
    simp [execList, exec, backgroundCmds]

/-- Claim C6 (amended): a pass that fails midway does not preserve the
previous frame (see the counterexample) — it can stop on a cleared, partially
redrawn surface.  What does hold: every partial execution that has performed
at least the leading clear is entirely independent of the previous frame's
surface content, so a half-drawn frame never mixes in (or retains) pixels of
the previous frame. -/
theorem partial_pass_no_stale (env : Env) (r : Option (List Landmarks))
    (k : ℕ) (sv : List (Affine × CompOp)) (cm cm' : List Cmd) (hk : 1 ≤ k) :
    execList ((drawCompositeOps env r).take k)
        ⟨Affine.id, CompOp.sourceOver, sv, cm⟩ =
      execList ((drawCompositeOps env r).take k)
        ⟨Affine.id, CompOp.sourceOver, sv, cm'⟩ := by
  obtain ⟨j, rfl⟩ : ∃ j, k = j + 1 := ⟨k - 1, by omega⟩
  have ht : drawCompositeOps env r =
      CtxOp.clearAll ::
        (((if env.baseComplete then
            [CtxOp.drawImage ImgSrc.base 0 0 env.canvasW env.canvasH]
          else []) ++ drawSlotGuideOps env) ++ faceOps env r) := rfl
  rw [ht]
  simp [List.take_succ_cons, execList, exec]

/-- Witness for the amended claim C6 at `k = 1`: the partial surface after
the clear is the same whether the previous frame held a command or not. -/
theorem partial_pass_no_stale_witness :
    (1 : ℕ) ≤ 1 ∧
    execList ((drawCompositeOps env0 none).take 1)
        ⟨Affine.id, CompOp.sourceOver, [], [guideEllipse env0 m0]⟩ =
      execList ((drawCompositeOps env0 none).take 1)
        ⟨Affine.id, CompOp.sourceOver, [], []⟩ :=
  ⟨le_refl 1,
    partial_pass_no_stale env0 none 1 [] [guideEllipse env0 m0] [] (le_refl 1)⟩

/-- Claim C7 counterexample: the guide ellipse is not centered at the
destination eye-midpoint.  With slot eyes `(0,0)`, `(100,0)` on a 100×100
canvas, the midpoint has `y = 0` but the drawn ellipse center has `y = 9`
(the code offsets the center by `ry * 0.1`, `src/main.js` line 138). -/
theorem guide_center_cex :
    drawSlotGuideOps env7 =
      [CtxOp.save, CtxOp.ellipse 50 9 75 90 0 0 (2 * Real.pi),
       CtxOp.restore] ∧
    (eyeMid (scalePt env7 m7 m7.eye_left) (scalePt env7 m7 m7.eye_right)).y = 0 ∧
    (9 : ℝ) ≠ 0 := by
  have hh : hypot (100 : ℝ) 0 = 100 := hypot_x_zero (by norm_num)
  refine ⟨?_, ?_, by norm_num⟩
  · simp only [drawSlotGuideOps, env7, m7, scalePt]
    norm_num [hh]
  · simp [eyeMid, scalePt, env7, m7]

/-- Claim C7 (amended): the guide ellipse has horizontal radius
`rx = 0.75 ×` destination eye distance and vertical radius `ry = 1.2 × rx`;
it is centered horizontally at the destination eye-midpoint but vertically
offset below it by `ry * 0.1`; and it is emitted by every composite pass
independent of whether a face was detected (the pass's operation list always
begins with the background segment containing it). -/
theorem guide_ellipse_geometry (env : Env) (m : Meta)
    (hm : env.meta = some m) :
    drawSlotGuideOps env =
      [CtxOp.save,
       CtxOp.ellipse
         (eyeMid (scalePt env m m.eye_left) (scalePt env m m.eye_right)).x
         ((eyeMid (scalePt env m m.eye_left) (scalePt env m m.eye_right)).y +
           hypot ((scalePt env m m.eye_right).x - (scalePt env m m.eye_left).x)
               ((scalePt env m m.eye_right).y - (scalePt env m m.eye_left).y) *
             0.75 * 1.2 * 0.1)
         (hypot ((scalePt env m m.eye_right).x - (scalePt env m m.eye_left).x)
             ((scalePt env m m.eye_right).y - (scalePt env m m.eye_left).y) *
           0.75)
         (hypot ((scalePt env m m.eye_right).x - (scalePt env m m.eye_left).x)
             ((scalePt env m m.eye_right).y - (scalePt env m m.eye_left).y) *
           0.75 * 1.2) 0 0 (2 * Real.pi),
       CtxOp.restore] ∧
    ∀ r : Option (List Landmarks),
      (drawCompositeOps env r).take (backgroundOps env).length =
        backgroundOps env := by
  constructor
  · simp [drawSlotGuideOps, hm, eyeMid]
  · intro r
    exact List.take_left _ _

/-- Witness for the amended claim C7: the guide segment of a no-detection
pass in the concrete environment. -/
theorem guide_ellipse_geometry_witness :
    (drawCompositeOps env0 none).take (backgroundOps env0).length =
      backgroundOps env0 :=
  (guide_ellipse_geometry env0 m0 rfl).2 none

/-- Claim C8: the per-frame composite pass is deterministic in its inputs
and idempotent: from the default inter-frame context state, running the pass
twice with identical inputs yields exactly the state of running it once, and
the resulting surface content does not depend on the previous surface
content. -/
theorem composite_idempotent (env : Env) (r : Option (List Landmarks))
    (sv sv' : List (Affine × CompOp)) (cm cm' : List Cmd) :
    drawComposite env r
        (drawComposite env r ⟨Affine.id, CompOp.sourceOver, sv, cm⟩) =
      drawComposite env r ⟨Affine.id, CompOp.sourceOver, sv, cm⟩ ∧
    (drawComposite env r ⟨Affine.id, CompOp.sourceOver, sv', cm'⟩).cmds =
      (drawComposite env r ⟨Affine.id, CompOp.sourceOver, sv, cm⟩).cmds := by
  constructor
  · rw [drawComposite_run env r sv cm, drawComposite_run]
  · rw [drawComposite_run env r sv' cm', drawComposite_run env r sv cm]

/-- Claim C9: after reset clears the `running` flag, any sequence of
detector-result callbacks that subsequently fires leaves the session — in
particular the destination surface — completely unchanged: each callback
checks the flag and no-ops. -/
theorem reset_halts_callbacks (env : Env) (s : Session)
    (rs : List (Option (List Landmarks))) :
    (resetSession s).running = false ∧
    rs.foldl (fun st r => onResults env r st) (resetSession s) =
      resetSession s := by
  refine ⟨rfl, ?_⟩
  induction rs with
  | nil => rfl
  | cons r rest ih =>
      rw [List.foldl_cons]
      have h : onResults env r (resetSession s) = resetSession s := by
        simp [onResults, resetSession]
      rw [h]
      exact ih

/-- Claim C10: when the video element reports zero (or missing, which the
DOM reports as zero) pixel dimensions, `pickKeypoints` denormalizes the
landmarks with the fallback dimensions 640×480 (`vw = videoWidth || 640`,
`vh = videoHeight || 480`, `src/main.js` lines 151-152); nonzero reported
dimensions are used as-is. -/
theorem video_dims_fallback (lm : Landmarks) (vw vh : ℝ)
    (hw : vw = 0) (hh : vh = 0) :
    pickKeypoints lm (orDefault vw 640) (orDefault vh 480) =
      ⟨⟨(lm 33).x * 640, (lm 33).y * 480⟩,
       ⟨(lm 263).x * 640, (lm 263).y * 480⟩,
       ⟨(lm 152).x * 640, (lm 152).y * 480⟩⟩ ∧
    ∀ w h : ℝ, w ≠ 0 → h ≠ 0 →
      pickKeypoints lm (orDefault w 640) (orDefault h 480) =
        pickKeypoints lm w h := by
  subst hw hh
  constructor
  · simp [pickKeypoints, orDefault]
  · intro w h hw' hh'
    simp [orDefault, hw', hh']

/-- Witness for claim C10 with a zero-size video report. -/
theorem video_dims_fallback_witness :
    (0 : ℝ) = 0 ∧
    pickKeypoints lm0 (orDefault 0 640) (orDefault 0 480) =
      ⟨⟨(lm0 33).x * 640, (lm0 33).y * 480⟩,
       ⟨(lm0 263).x * 640, (lm0 263).y * 480⟩,
       ⟨(lm0 152).x * 640, (lm0 152).y * 480⟩⟩ :=
  ⟨rfl, (video_dims_fallback lm0 0 0 rfl rfl).1⟩

end FaceDemo
